import Mathlib

/-!
Shallow embedding of `cancer_detection_app.py` (class `CancerDetectionApp`).

Probabilities and the decision threshold are modelled as rationals;
machine sizes as naturals.  UI side effects (dialogs, log lines) are
modelled as explicit outcome values; filesystem and library calls
(file dialogs, PIL, numpy, the Keras model) are modelled as explicit
inputs to the functions that wrap them.
-/

namespace CancerDetection

/-- A two-element model output vector `predictions[0]`, as produced by the
binary classifier: index 0 is the non-cancerous probability, index 1 the
cancerous probability. -/
structure Scores where
  p0 : ℚ
  p1 : ℚ
  deriving DecidableEq

/-- `np.argmax(predictions, axis=1)[0]` on a two-element vector:
numpy returns the first index attaining the maximum, so the result is 1
exactly when `p1 > p0` (ties go to index 0). -/
def argmax2 (s : Scores) : ℕ :=
  if s.p1 > s.p0 then 1 else 0

/-- `confidence_scores[class_index]` for a two-element vector. -/
def Scores.get (s : Scores) (i : ℕ) : ℚ :=
  if i = 1 then s.p1 else s.p0

/-- The label set by `update_results` (source lines 381-389): positive text
exactly when `class_index == 1 and confidence >= threshold`, where
`confidence = confidence_scores[class_index]`.  The source prefixes the
text with a coloured-dot emoji; the emoji is dropped here. -/
def update_results (threshold : ℚ) (class_index : ℕ) (confidence_scores : Scores) : String :=
  if class_index = 1 ∧ threshold ≤ confidence_scores.get class_index then
    "CANCER DETECTED"
  else
    "NO CANCER DETECTED"

/-- The `Class` row written by `update_metrics` (source lines 410-413):
`"Cancerous" if class_index == 1 else "Non-Cancerous"`, with no threshold
test. -/
def update_metrics_class (class_index : ℕ) : String :=
  if class_index = 1 then "Cancerous" else "Non-Cancerous"

/-- The `Result` column computed inside `add_to_history` (source line 427):
`"Cancer" if class_index == 1 else "No Cancer"`, with no threshold test. -/
def history_result (class_index : ℕ) : String :=
  if class_index = 1 then "Cancer" else "No Cancer"

/-- C1: for every two-element output vector and threshold, the Results-tab
label is positive iff the arg-max index is 1 and the probability at that
index is at least the threshold; equality with the threshold counts as
positive and a probability strictly below it as negative. -/
theorem update_results_decision_rule (p0 p1 t : ℚ) :
    (update_results t (argmax2 ⟨p0, p1⟩) ⟨p0, p1⟩ = "CANCER DETECTED" ↔
      (argmax2 ⟨p0, p1⟩ = 1 ∧ t ≤ Scores.get ⟨p0, p1⟩ (argmax2 ⟨p0, p1⟩))) ∧
    (argmax2 ⟨p0, p1⟩ = 1 →
      update_results p1 (argmax2 ⟨p0, p1⟩) ⟨p0, p1⟩ = "CANCER DETECTED") ∧
    (argmax2 ⟨p0, p1⟩ = 1 → p1 < t →
      update_results t (argmax2 ⟨p0, p1⟩) ⟨p0, p1⟩ = "NO CANCER DETECTED") := by
  unfold update_results argmax2 Scores.get
  by_cases hgt : p1 > p0 <;> simp [hgt]

/-- Witness for C1 at the boundary: scores (1/4, 3/4) with threshold 3/4
(equal to the arg-max probability) are classified positive, and with
threshold 4/5 (strictly above) negative. -/
theorem update_results_decision_rule_witness :
    (update_results (3/4) (argmax2 ⟨1/4, 3/4⟩) ⟨1/4, 3/4⟩ = "CANCER DETECTED" ↔
      (argmax2 ⟨1/4, 3/4⟩ = 1 ∧ (3/4 : ℚ) ≤ Scores.get ⟨1/4, 3/4⟩ (argmax2 ⟨1/4, 3/4⟩))) ∧
    (argmax2 ⟨1/4, 3/4⟩ = 1 →
      update_results (3/4) (argmax2 ⟨1/4, 3/4⟩) ⟨1/4, 3/4⟩ = "CANCER DETECTED") ∧
    (argmax2 ⟨1/4, 3/4⟩ = 1 → (3/4 : ℚ) < 3/4 →
      update_results (3/4) (argmax2 ⟨1/4, 3/4⟩) ⟨1/4, 3/4⟩ = "NO CANCER DETECTED") :=
  update_results_decision_rule (1/4) (3/4) (3/4)

/-- C2 counterexample: scores (3/10, 7/10) with threshold 4/5.  The arg-max
index is 1 but 7/10 < 4/5, so the Results tab shows the negative label while
the history row says "Cancer" and the Metrics Class row says "Cancerous":
the surfaced labels do not all respect the threshold. -/
theorem history_metrics_ignore_threshold_cex :
    history_result (argmax2 ⟨3/10, 7/10⟩) = "Cancer" ∧
    update_metrics_class (argmax2 ⟨3/10, 7/10⟩) = "Cancerous" ∧
    update_results (4/5) (argmax2 ⟨3/10, 7/10⟩) ⟨3/10, 7/10⟩ = "NO CANCER DETECTED" ∧
    ¬ ((4/5 : ℚ) ≤ Scores.get ⟨3/10, 7/10⟩ 1) := by
  refine ⟨?_, ?_, ?_, ?_⟩ <;>
    simp [history_result, update_metrics_class, update_results, argmax2, Scores.get] <;>
    norm_num

/-- C2 amended: the history `Result` and the Metrics `Class` row declare a
positive result exactly when the arg-max index is 1, with no threshold test;
they agree with the thresholded Results-tab label exactly when the arg-max
index being 1 implies the cancerous probability reaches the threshold. -/
theorem history_metrics_argmax_rule (p0 p1 t : ℚ) :
    (history_result (argmax2 ⟨p0, p1⟩) = "Cancer" ↔ argmax2 ⟨p0, p1⟩ = 1) ∧
    (update_metrics_class (argmax2 ⟨p0, p1⟩) = "Cancerous" ↔ argmax2 ⟨p0, p1⟩ = 1) ∧
    ((history_result (argmax2 ⟨p0, p1⟩) = "Cancer" ↔
        update_results t (argmax2 ⟨p0, p1⟩) ⟨p0, p1⟩ = "CANCER DETECTED") ↔
      (argmax2 ⟨p0, p1⟩ = 1 → t ≤ p1)) := by
  unfold history_result update_metrics_class update_results argmax2 Scores.get
  by_cases hgt : p1 > p0 <;> by_cases ht : t ≤ p1 <;> simp [hgt, ht]

/-- `resize_image_aspect_ratio` (source lines 322-326): the scaling factor is
`min(max_w / width, max_h / height)` and the new size is
`(int(width * ratio), int(height * ratio))`.  Python's `int()` truncates
toward zero, which on these non-negative values is the floor. -/
def resize_image_aspect_ratio (width height max_w max_h : ℕ) : ℤ × ℤ :=
  let ratio : ℚ := min ((max_w : ℚ) / width) ((max_h : ℚ) / height)
  (⌊(width : ℚ) * ratio⌋, ⌊(height : ℚ) * ratio⌋)

/-- C3: with the max box (350, 350) used by `load_and_display_image`, the
result is exactly `(⌊w·r⌋, ⌊h·r⌋)` for `r = min(350/w, 350/h)`, both
dimensions fit in the box, and the aspect ratio is preserved up to the
integer truncation: the cross products of the new and old sizes differ by
less than `max w h`. -/
theorem resize_image_aspect_ratio_spec (w h : ℕ) (hw : 0 < w) (hh : 0 < h) :
    resize_image_aspect_ratio w h 350 350 =
      (⌊(w : ℚ) * min (350 / (w : ℚ)) (350 / (h : ℚ))⌋,
       ⌊(h : ℚ) * min (350 / (w : ℚ)) (350 / (h : ℚ))⌋) ∧
    (resize_image_aspect_ratio w h 350 350).1 ≤ 350 ∧
    (resize_image_aspect_ratio w h 350 350).2 ≤ 350 ∧
    |(resize_image_aspect_ratio w h 350 350).1 * (h : ℤ) -
        (resize_image_aspect_ratio w h 350 350).2 * (w : ℤ)| < (max w h : ℤ) := by
  have hw' : (0 : ℚ) < (w : ℚ) := by exact_mod_cast hw
  have hh' : (0 : ℚ) < (h : ℚ) := by exact_mod_cast hh
  set r : ℚ := min (350 / (w : ℚ)) (350 / (h : ℚ)) with hrdef
  have hres : resize_image_aspect_ratio w h 350 350 = (⌊(w : ℚ) * r⌋, ⌊(h : ℚ) * r⌋) := by
    unfold resize_image_aspect_ratio
    push_cast
    rfl
  have hr1 : (w : ℚ) * r ≤ 350 := by
    have hle : r ≤ 350 / (w : ℚ) := min_le_left _ _
    have := mul_le_mul_of_nonneg_left hle hw'.le
    calc (w : ℚ) * r ≤ (w : ℚ) * (350 / (w : ℚ)) := this
      _ = 350 := by field_simp
  have hr2 : (h : ℚ) * r ≤ 350 := by
    have hle : r ≤ 350 / (h : ℚ) := min_le_right _ _
    have := mul_le_mul_of_nonneg_left hle hh'.le
    calc (h : ℚ) * r ≤ (h : ℚ) * (350 / (h : ℚ)) := this
      _ = 350 := by field_simp
  have hfl1 : ⌊(w : ℚ) * r⌋ ≤ 350 := by
    have := Int.floor_le_floor hr1
    simpa using this
  have hfl2 : ⌊(h : ℚ) * r⌋ ≤ 350 := by
    have := Int.floor_le_floor hr2
    simpa using this
  have ha1 : ((⌊(w : ℚ) * r⌋ : ℤ) : ℚ) ≤ (w : ℚ) * r := Int.floor_le _
  have ha2 : (w : ℚ) * r - 1 < ((⌊(w : ℚ) * r⌋ : ℤ) : ℚ) := Int.sub_one_lt_floor _
  have hb1 : ((⌊(h : ℚ) * r⌋ : ℤ) : ℚ) ≤ (h : ℚ) * r := Int.floor_le _
  have hb2 : (h : ℚ) * r - 1 < ((⌊(h : ℚ) * r⌋ : ℤ) : ℚ) := Int.sub_one_lt_floor _
  have key1 : ((⌊(w : ℚ) * r⌋ : ℤ) : ℚ) * h - ((⌊(h : ℚ) * r⌋ : ℤ) : ℚ) * w < w := by
    nlinarith [mul_le_mul_of_nonneg_right ha1 hh'.le, mul_lt_mul_of_pos_right hb2 hw']
  have key2 : ((⌊(h : ℚ) * r⌋ : ℤ) : ℚ) * w - ((⌊(w : ℚ) * r⌋ : ℤ) : ℚ) * h < h := by
    nlinarith [mul_le_mul_of_nonneg_right hb1 hw'.le, mul_lt_mul_of_pos_right ha2 hh']
  have k1 : ⌊(w : ℚ) * r⌋ * (h : ℤ) - ⌊(h : ℚ) * r⌋ * (w : ℤ) < (w : ℤ) := by
    exact_mod_cast key1
  have k2 : ⌊(h : ℚ) * r⌋ * (w : ℤ) - ⌊(w : ℚ) * r⌋ * (h : ℤ) < (h : ℤ) := by
    exact_mod_cast key2
  have hmw : (w : ℤ) ≤ (max w h : ℤ) := by exact_mod_cast le_max_left w h
  have hmh : (h : ℤ) ≤ (max w h : ℤ) := by exact_mod_cast le_max_right w h
  refine ⟨by rw [hres], ?_, ?_, ?_⟩ <;> rw [hres]
  · exact hfl1
  · exact hfl2
  · show |⌊(w : ℚ) * r⌋ * (h : ℤ) - ⌊(h : ℚ) * r⌋ * (w : ℤ)| < max (w : ℤ) (h : ℤ)
    rw [abs_lt]
    have hmax1 : (w : ℤ) ≤ max (w : ℤ) (h : ℤ) := le_max_left _ _
    have hmax2 : (h : ℤ) ≤ max (w : ℤ) (h : ℤ) := le_max_right _ _
    exact ⟨by linarith, by linarith⟩

/-- Witness for C3 at the concrete size 100x100: the hypotheses `0 < 100`
hold and the theorem applies. -/
theorem resize_image_aspect_ratio_spec_witness :
    0 < 100 ∧
    (resize_image_aspect_ratio 100 100 350 350 =
      (⌊(100 : ℚ) * min (350 / (100 : ℚ)) (350 / (100 : ℚ))⌋,
       ⌊(100 : ℚ) * min (350 / (100 : ℚ)) (350 / (100 : ℚ))⌋) ∧
    (resize_image_aspect_ratio 100 100 350 350).1 ≤ 350 ∧
    (resize_image_aspect_ratio 100 100 350 350).2 ≤ 350 ∧
    |(resize_image_aspect_ratio 100 100 350 350).1 * ((100 : ℕ) : ℤ) -
        (resize_image_aspect_ratio 100 100 350 350).2 * ((100 : ℕ) : ℤ)| <
      (max 100 100 : ℤ)) :=
  ⟨by decide, resize_image_aspect_ratio_spec 100 100 (by decide) (by decide)⟩

/-- A row of the history tree: the four string values
`(current_date, filename, result, confidence)` inserted by
`add_to_history`. -/
structure HistoryEntry where
  date : String
  filename : String
  result : String
  confidence : String
  deriving DecidableEq

/-- `add_to_history` (source lines 424-429).  The date string comes from
`datetime.now().strftime(...)` and the confidence string from the `:.2%`
format of `confidence_scores[class_index]`; both formatted strings are
runtime inputs here.  The `Result` value is computed from `class_index`
(`history_result`), and the new row is inserted at index 0 — the top of the
tree. -/
def add_to_history (current_date filename : String) (class_index : ℕ)
    (confidence : String) (tree : List HistoryEntry) : List HistoryEntry :=
  ⟨current_date, filename, history_result class_index, confidence⟩ :: tree

/-- One CSV data row as written by `export_history` (source line 453):
the four values joined by commas, with no quoting or escaping. -/
def history_line (e : HistoryEntry) : String :=
  e.date ++ "," ++ e.filename ++ "," ++ e.result ++ "," ++ e.confidence

/-- `export_history` (source lines 436-453) as the list of lines written to
the chosen file: `none` when the history is empty (the function shows an
info dialog and writes nothing), otherwise the header line followed by one
line per tree row in tree order. -/
def export_history (tree : List HistoryEntry) : Option (List String) :=
  if tree.isEmpty then none
  else some ("Date,Filename,Result,Confidence" :: tree.map history_line)

/-- C4: for a non-empty history the export is exactly the header line
followed by one comma-joined line per entry in tree order, so it has
`length + 1` lines; and `add_to_history` prepends the new entry, so tree
order is most recent first. -/
theorem export_history_format (tree : List HistoryEntry) (hne : tree ≠ []) :
    export_history tree = some ("Date,Filename,Result,Confidence" :: tree.map history_line) ∧
    (∀ lines, export_history tree = some lines →
      lines.length = tree.length + 1 ∧
      lines.head? = some "Date,Filename,Result,Confidence" ∧
      lines.tail = tree.map history_line) ∧
    (∀ d f i c, add_to_history d f i c tree =
      ⟨d, f, history_result i, c⟩ :: tree) := by
  have hemp : tree.isEmpty = false := by
    simpa [List.isEmpty_iff] using hne
  refine ⟨by simp [export_history, hemp], ?_, fun d f i c => rfl⟩
  intro lines hl
  simp only [export_history, hemp, Bool.false_eq_true, if_false, Option.some.injEq] at hl
  subst hl
  simp

/-- Witness for C4 on a one-entry history. -/
theorem export_history_format_witness :
    ([(⟨"2025-01-01 00:00", "img.png", "Cancer", "75.00%"⟩ : HistoryEntry)] ≠ []) ∧
    (export_history [⟨"2025-01-01 00:00", "img.png", "Cancer", "75.00%"⟩] =
      some ("Date,Filename,Result,Confidence" ::
        ([(⟨"2025-01-01 00:00", "img.png", "Cancer", "75.00%"⟩ : HistoryEntry)]).map history_line) ∧
    (∀ lines, export_history [⟨"2025-01-01 00:00", "img.png", "Cancer", "75.00%"⟩] = some lines →
      lines.length = ([(⟨"2025-01-01 00:00", "img.png", "Cancer", "75.00%"⟩ : HistoryEntry)]).length + 1 ∧
      lines.head? = some "Date,Filename,Result,Confidence" ∧
      lines.tail = ([(⟨"2025-01-01 00:00", "img.png", "Cancer", "75.00%"⟩ : HistoryEntry)]).map history_line) ∧
    (∀ d f i c, add_to_history d f i c [⟨"2025-01-01 00:00", "img.png", "Cancer", "75.00%"⟩] =
      ⟨d, f, history_result i, c⟩ :: [⟨"2025-01-01 00:00", "img.png", "Cancer", "75.00%"⟩])) :=
  ⟨by simp, export_history_format _ (by simp)⟩

/-- The configuration record: the three keys of `config.json`.  The
threshold is modelled as a rational. -/
structure Config where
  model_path : String
  target_size : ℕ × ℕ
  threshold : ℚ
  deriving DecidableEq

/-- The `default_config` literal of `load_config` (source lines 61-65). -/
def default_config : Config :=
  { model_path := "cancer_detection_model.h5"
    target_size := (48, 48)
    threshold := 1/2 }

/-- `load_config` (source lines 60-72).  The input is the parsed contents of
`config.json` when the file exists (`none` models `FileNotFoundError`).
The result is the returned configuration paired with the file contents
after the call: an absent file is written with the defaults, a present file
is left as it was and its parsed contents are returned unchanged, with no
validation. -/
def load_config (file : Option Config) : Config × Option Config :=
  match file with
  | some c => (c, some c)
  | none => (default_config, some default_config)

/-- C5: on a missing `config.json`, `load_config` writes and returns exactly
the documented defaults — model path `cancer_detection_model.h5`, target
size (48, 48), threshold 1/2 —, and on a present file it returns the parsed
contents unchanged without rewriting the file. -/
theorem load_config_defaults :
    load_config none = (default_config, some default_config) ∧
    default_config =
      { model_path := "cancer_detection_model.h5", target_size := (48, 48), threshold := 1/2 } ∧
    (∀ c, load_config (some c) = (c, some c)) :=
  ⟨rfl, rfl, fun _ => rfl⟩

/-- C7 counterexample: an existing `config.json` with `threshold = 3/2` is
returned unvalidated, and that out-of-range threshold reaches the decision
logic, which then classifies even a certain cancerous score (0, 1)
as negative. -/
theorem threshold_not_validated_cex :
    (load_config (some ⟨"m.h5", (48, 48), 3/2⟩)).1.threshold = 3/2 ∧
    ¬ ((load_config (some ⟨"m.h5", (48, 48), 3/2⟩)).1.threshold ≤ 1) ∧
    update_results (load_config (some ⟨"m.h5", (48, 48), 3/2⟩)).1.threshold
      (argmax2 ⟨0, 1⟩) ⟨0, 1⟩ = "NO CANCER DETECTED" := by
    refine ⟨rfl, by norm_num [load_config], ?_⟩
    simp [load_config, update_results, argmax2, Scores.get]
    norm_num

/-- C7 amended: the threshold is in [0, 1] whenever the configuration was
created from the defaults, while a threshold loaded from an existing
configuration file is used exactly as parsed, so it lies in [0, 1] only
when the file's value does. -/
theorem threshold_range_amended :
    (0 ≤ (load_config none).1.threshold ∧ (load_config none).1.threshold ≤ 1) ∧
    (∀ c, (load_config (some c)).1.threshold = c.threshold) := by
  refine ⟨⟨by norm_num [load_config, default_config], by norm_num [load_config, default_config]⟩, fun c => rfl⟩

/-- A model artifact on disk: loading it either succeeds or raises a
non-`FileNotFoundError` exception (corrupt file). -/
inductive ModelArtifact
  | ok
  | corrupt
  deriving DecidableEq

/-- Outcome of `load_model_file` (source lines 74-97). -/
inductive LoadModelOutcome
  | loaded
  | caughtDialog
  | notLoadedSilent
  | uncaught
  deriving DecidableEq

/-- `load_model_file` (source lines 74-97).  `default_file` is the artifact
at the configured path (`none` models `FileNotFoundError`), `user_choice`
the file picked in the fallback dialog (`none` when the dialog is
cancelled).  A corrupt default file raises a generic exception, caught by
`except Exception` (log + error dialog).  A missing default file is caught
by `except FileNotFoundError`, which opens the file dialog and calls
`load_model` on the chosen path *inside that handler*: an exception there
is not caught by the sibling `except Exception` clause and propagates out
of the method. -/
def load_model_file (default_file user_choice : Option ModelArtifact) : LoadModelOutcome :=
  match default_file with
  | some ModelArtifact.ok => LoadModelOutcome.loaded
  | some ModelArtifact.corrupt => LoadModelOutcome.caughtDialog
  | none =>
      match user_choice with
      | none => LoadModelOutcome.notLoadedSilent
      | some ModelArtifact.ok => LoadModelOutcome.loaded
      | some ModelArtifact.corrupt => LoadModelOutcome.uncaught

/-- The user-visible effects of one operation: whether a dialog is shown,
whether a log line is written, and whether an exception escapes the
operation. -/
structure Effects where
  dialog : Bool
  logged : Bool
  uncaught : Bool
  deriving DecidableEq

/-- Effects of each `load_model_file` outcome, read off the source:
success logs info; a corrupt default file logs an error and shows an error
dialog; a cancelled fallback dialog logs only the "Default model not
found" warning; the uncaught path has logged that warning before the
exception escapes. -/
def load_model_effects : LoadModelOutcome → Effects
  | LoadModelOutcome.loaded => ⟨false, true, false⟩
  | LoadModelOutcome.caughtDialog => ⟨true, true, false⟩
  | LoadModelOutcome.notLoadedSilent => ⟨false, true, false⟩
  | LoadModelOutcome.uncaught => ⟨false, true, true⟩

/-- Effects of `load_config` (source lines 60-72) by file state: a missing
file is caught by `except FileNotFoundError` and handled by writing the
defaults, with no log line and no dialog; a present file is read with no
effects. -/
def load_config_effects : Option Config → Effects
  | none => ⟨false, false, false⟩
  | some _ => ⟨false, false, false⟩

/-- The mutable state of `CancerDetectionApp` relevant to the upload /
predict flow: `model_loaded`, `image_path`, the prediction button's state,
`prediction_made`, and whether an image is displayed in the left panel. -/
structure AppState where
  model_loaded : Bool
  image_path : Option String
  predict_enabled : Bool
  prediction_made : Bool
  image_displayed : Bool
  deriving DecidableEq

/-- The state after `__init__` and `create_ui`: no image path, the
prediction button created with `state="disabled"` (source lines 132-134),
no prediction made, no image displayed; `model_loaded` is whatever
`load_model_file` produced. -/
def init_state (ml : Bool) : AppState :=
  { model_loaded := ml
    image_path := none
    predict_enabled := false
    prediction_made := false
    image_displayed := false }

/-- An image file as seen by `upload_image`: its path and the
`img.size = (width, height)` reported by PIL. -/
structure ImageFile where
  path : String
  width : ℕ
  height : ℕ
  deriving DecidableEq

/-- Outcome of `upload_image` (source lines 285-306). -/
inductive UploadOutcome
  | noSelection
  | openFailed
  | tooSmall
  | loadedOk
  deriving DecidableEq

/-- `upload_image` (source lines 285-306).  `sel` is the file-dialog
result: `none` when cancelled, `some (Except.error e)` when `Image.open`
raises (caught: error dialog + log), `some (Except.ok img)` when the image
opens.  An image with either dimension below `min(target_size)` only
produces a warning dialog; otherwise `image_path` is set, the image is
displayed, and the prediction button is enabled. -/
def upload_image (target_size : ℕ × ℕ) (sel : Option (Except String ImageFile))
    (s : AppState) : AppState × UploadOutcome :=
  match sel with
  | none => (s, UploadOutcome.noSelection)
  | some (Except.error _) => (s, UploadOutcome.openFailed)
  | some (Except.ok img) =>
      let min_size := min target_size.1 target_size.2
      if img.width < min_size ∨ img.height < min_size then
        (s, UploadOutcome.tooSmall)
      else
        ({ s with
            image_path := some img.path
            image_displayed := true
            predict_enabled := true }, UploadOutcome.loadedOk)

/-- Effects of each `upload_image` outcome, read off the source:
a failed `Image.open` shows an error dialog and logs; a too-small image
shows a warning dialog only; a successful upload logs info. -/
def upload_effects : UploadOutcome → Effects
  | UploadOutcome.noSelection => ⟨false, false, false⟩
  | UploadOutcome.openFailed => ⟨true, true, false⟩
  | UploadOutcome.tooSmall => ⟨true, false, false⟩
  | UploadOutcome.loadedOk => ⟨false, true, false⟩

/-- Outcome of `predict_cancer` (source lines 341-379). -/
inductive PredictOutcome
  | noModel
  | noImage
  | failedCaught
  | predicted
  deriving DecidableEq

/-- `predict_cancer` (source lines 341-379).  The two guards return with an
error dialog and no state change; `infer` is the result of the try block
(`none` when preprocessing or `model.predict` raises, caught by the
`except` clause with an error dialog).  A successful prediction sets
`prediction_made`. -/
def predict_cancer (infer : Option Scores) (s : AppState) : AppState × PredictOutcome :=
  if s.model_loaded = false then (s, PredictOutcome.noModel)
  else
    match s.image_path with
    | none => (s, PredictOutcome.noImage)
    | some _ =>
        match infer with
        | none => (s, PredictOutcome.failedCaught)
        | some _ => ({ s with prediction_made := true }, PredictOutcome.predicted)

/-- Effects of each `predict_cancer` outcome, read off the source: the
guard failures show an error dialog without logging; a caught prediction
failure shows an error dialog and logs; success logs info. -/
def predict_effects : PredictOutcome → Effects
  | PredictOutcome.noModel => ⟨true, false, false⟩
  | PredictOutcome.noImage => ⟨true, false, false⟩
  | PredictOutcome.failedCaught => ⟨true, true, false⟩
  | PredictOutcome.predicted => ⟨false, true, false⟩

/-- C6 counterexample: when the default model file is missing and the user
selects a corrupt model file, `load_model(file_path)` raises inside the
`except FileNotFoundError` handler and the exception propagates uncaught
out of `load_model_file`. -/
theorem load_model_file_uncaught_cex :
    load_model_file none (some ModelArtifact.corrupt) = LoadModelOutcome.uncaught ∧
    (load_model_effects (load_model_file none (some ModelArtifact.corrupt))).uncaught = true ∧
    (load_model_effects (load_model_file none (some ModelArtifact.corrupt))).dialog = false :=
  ⟨rfl, rfl, rfl⟩

/-- C6 amended: an exception escapes `load_model_file` exactly when the
default model is missing and the user-selected replacement is corrupt; a
missing config is caught and handled silently (no log, no dialog); invalid
images and inference exceptions are always caught, with an error dialog
and a log line. -/
theorem error_handling_amended (d u : Option ModelArtifact) :
    ((load_model_effects (load_model_file d u)).uncaught = true ↔
      (d = none ∧ u = some ModelArtifact.corrupt)) ∧
    load_config_effects none = ⟨false, false, false⟩ ∧
    (∀ ts sel s, (upload_effects (upload_image ts sel s).2).uncaught = false) ∧
    (∀ inf s, (predict_effects (predict_cancer inf s).2).uncaught = false) ∧
    (upload_effects UploadOutcome.openFailed = ⟨true, true, false⟩) ∧
    (predict_effects PredictOutcome.failedCaught = ⟨true, true, false⟩) := by
  refine ⟨?_, rfl, ?_, ?_, rfl, rfl⟩
  · rcases d with _ | (_ | _) <;> rcases u with _ | (_ | _) <;>
      simp [load_model_file, load_model_effects]
  · intro ts sel s
    rcases sel with _ | (e | img) <;>
      simp only [upload_image, upload_effects]
    split <;> rfl
  · intro inf s
    unfold predict_cancer
    split
    · rfl
    · rcases hip : s.image_path with _ | p <;> rcases inf with _ | sc <;> simp [predict_effects]

/-- States reachable from start-up by any sequence of uploads and
prediction attempts, over the configured target size. -/
inductive Reachable (target_size : ℕ × ℕ) : AppState → Prop
  | start (ml : Bool) : Reachable target_size (init_state ml)
  | upload {s : AppState} (sel : Option (Except String ImageFile)) :
      Reachable target_size s → Reachable target_size (upload_image target_size sel s).1
  | predict {s : AppState} (infer : Option Scores) :
      Reachable target_size s → Reachable target_size (predict_cancer infer s).1

/-- Helper: a prediction attempt never changes the button state or the
image path (only `prediction_made`). -/
theorem predict_cancer_keeps_fields (inf : Option Scores) (s : AppState) :
    (predict_cancer inf s).1.predict_enabled = s.predict_enabled ∧
    (predict_cancer inf s).1.image_path = s.image_path := by
  unfold predict_cancer
  split
  · exact ⟨rfl, rfl⟩
  · cases hip : s.image_path <;> cases inf <;> simp [hip]

/-- C8: the prediction button starts disabled and in every reachable state
it is enabled only when an image path has been set by a successful upload;
`predict_cancer` with a missing model or missing image returns an error
dialog and leaves the state unchanged, and the prediction (the try block)
only runs when both the model is loaded and an image is selected. -/
theorem predict_button_guard (ts : ℕ × ℕ) (s : AppState) (hs : Reachable ts s) :
    (∀ ml, (init_state ml).predict_enabled = false) ∧
    (s.predict_enabled = true → s.image_path.isSome = true) ∧
    (∀ inf, s.model_loaded = false →
      predict_cancer inf s = (s, PredictOutcome.noModel) ∧
      (predict_effects PredictOutcome.noModel).dialog = true) ∧
    (∀ inf, s.model_loaded = true → s.image_path = none →
      predict_cancer inf s = (s, PredictOutcome.noImage) ∧
      (predict_effects PredictOutcome.noImage).dialog = true) ∧
    (∀ inf, ((predict_cancer inf s).2 = PredictOutcome.predicted ∨
        (predict_cancer inf s).2 = PredictOutcome.failedCaught) →
      s.model_loaded = true ∧ s.image_path.isSome = true) := by
  refine ⟨fun ml => rfl, ?_, ?_, ?_, ?_⟩
  · induction hs with
    | start ml => simp [init_state]
    | @upload s sel hs ih =>
        rcases sel with _ | (e | img)
        · exact ih
        · exact ih
        · simp only [upload_image]
          split
          · exact ih
          · intro _; rfl
    | @predict s inf hs ih =>
        intro hen
        rw [(predict_cancer_keeps_fields inf s).2]
        refine ih ?_
        rw [← (predict_cancer_keeps_fields inf s).1]
        exact hen
  · intro inf hml
    exact ⟨by simp [predict_cancer, hml], rfl⟩
  · intro inf hml hip
    exact ⟨by simp [predict_cancer, hml, hip], rfl⟩
  · intro inf
    unfold predict_cancer
    split
    · intro hcon; rcases hcon with h | h <;> exact absurd h (by simp)
    · rename_i hml
      rcases hip : s.image_path with _ | p
      · simp [hip]
      · rcases inf with _ | sc <;> simp [hip] <;> simp at hml <;> simp [hml]

/-- Witness for C8 at the initial state with a loaded model. -/
theorem predict_button_guard_witness :
    Reachable (48, 48) (init_state true) ∧
    ((∀ ml, (init_state ml).predict_enabled = false) ∧
    ((init_state true).predict_enabled = true → (init_state true).image_path.isSome = true) ∧
    (∀ inf, (init_state true).model_loaded = false →
      predict_cancer inf (init_state true) = (init_state true, PredictOutcome.noModel) ∧
      (predict_effects PredictOutcome.noModel).dialog = true) ∧
    (∀ inf, (init_state true).model_loaded = true → (init_state true).image_path = none →
      predict_cancer inf (init_state true) = (init_state true, PredictOutcome.noImage) ∧
      (predict_effects PredictOutcome.noImage).dialog = true) ∧
    (∀ inf, ((predict_cancer inf (init_state true)).2 = PredictOutcome.predicted ∨
        (predict_cancer inf (init_state true)).2 = PredictOutcome.failedCaught) →
      (init_state true).model_loaded = true ∧ (init_state true).image_path.isSome = true)) :=
  ⟨Reachable.start true, predict_button_guard (48, 48) (init_state true) (Reachable.start true)⟩

/-- C10: an image with either dimension below `min(target_size)` only
triggers the warning dialog — `image_path`, the display and the button are
untouched — while an image meeting the minimum size sets `image_path`,
displays the image and enables the prediction button. -/
theorem upload_image_min_size (ts : ℕ × ℕ) (img : ImageFile) (s : AppState)
    (hsmall : img.width < min ts.1 ts.2 ∨ img.height < min ts.1 ts.2) :
    upload_image ts (some (Except.ok img)) s = (s, UploadOutcome.tooSmall) ∧
    (upload_effects UploadOutcome.tooSmall).dialog = true ∧
    (∀ img' : ImageFile, ¬ (img'.width < min ts.1 ts.2 ∨ img'.height < min ts.1 ts.2) →
      upload_image ts (some (Except.ok img')) s =
        ({ s with
            image_path := some img'.path
            image_displayed := true
            predict_enabled := true }, UploadOutcome.loadedOk)) := by
  refine ⟨?_, rfl, ?_⟩
  · simp only [upload_image]
    rw [if_pos hsmall]
  · intro img' hbig
    simp only [upload_image]
    rw [if_neg hbig]

/-- Witness for C10: a 10x500 image is rejected against the 48x48 minimum,
a 48x48 image is accepted. -/
theorem upload_image_min_size_witness :
    ((10 < min 48 48 ∨ 500 < min 48 48) ∧
    (upload_image (48, 48) (some (Except.ok ⟨"a.png", 10, 500⟩)) (init_state true) =
      (init_state true, UploadOutcome.tooSmall) ∧
    (upload_effects UploadOutcome.tooSmall).dialog = true ∧
    (∀ img' : ImageFile, ¬ (img'.width < min 48 48 ∨ img'.height < min 48 48) →
      upload_image (48, 48) (some (Except.ok img')) (init_state true) =
        ({ (init_state true) with
            image_path := some img'.path
            image_displayed := true
            predict_enabled := true }, UploadOutcome.loadedOk)))) :=
  ⟨Or.inl (by decide),
    upload_image_min_size (48, 48) ⟨"a.png", 10, 500⟩ (init_state true) (Or.inl (by decide))⟩

/-- A PIL image as used by `preprocess_image`: its mode string, its size,
and its pixel grid.  `pixel y x` is the (R, G, B) byte triple at row `y`,
column `x`. -/
structure PilImage where
  mode : String
  width : ℕ
  height : ℕ
  pixel : ℕ → ℕ → ℕ × ℕ × ℕ

/-- All pixel components are bytes — the uint8 contract of a PIL image. -/
def PilImage.bytes_valid (img : PilImage) : Prop :=
  ∀ y x, (img.pixel y x).1 ≤ 255 ∧ (img.pixel y x).2.1 ≤ 255 ∧ (img.pixel y x).2.2 ≤ 255

/-- Models the library call `image.convert('RGB')`: an RGB-mode image of
the same size with byte pixels; the stored triples are carried over. -/
def PilImage.convert_rgb (img : PilImage) : PilImage :=
  { img with mode := "RGB" }

/-- The mode branch of `preprocess_image` (source lines 333-334): convert
only when the mode is not already RGB. -/
def to_rgb (image : PilImage) : PilImage :=
  if image.mode = "RGB" then image else image.convert_rgb

/-- Models the library call `image.resize(size)` with `size` a
`(width, height)` pair: an image of the requested size whose pixels are
sampled from the source grid (PIL resampling keeps uint8 pixels;
nearest-index sampling models that contract). -/
def PilImage.resize (img : PilImage) (size : ℕ × ℕ) : PilImage :=
  { mode := img.mode
    width := size.1
    height := size.2
    pixel := fun y x => img.pixel (y * img.height / size.2) (x * img.width / size.1) }

/-- Models `img_to_array`: the height x width x 3 array of byte values as
rationals, rows indexed by `y`. -/
def img_to_array (img : PilImage) : List (List (List ℚ)) :=
  (List.range img.height).map fun y =>
    (List.range img.width).map fun x =>
      [((img.pixel y x).1 : ℚ), ((img.pixel y x).2.1 : ℚ), ((img.pixel y x).2.2 : ℚ)]

/-- `preprocess_image` (source lines 328-339): raises
`ValueError("Model not loaded")` when the model is not loaded; otherwise
converts to RGB, resizes to `tuple(config["target_size"])`, converts to an
array, prepends the batch axis (`np.expand_dims(..., axis=0)`) and divides
by 255. -/
def preprocess_image (model_loaded : Bool) (target_size : ℕ × ℕ) (image : PilImage) :
    Except String (List (List (List (List ℚ)))) :=
  if model_loaded = false then Except.error "Model not loaded"
  else
    Except.ok ([img_to_array ((to_rgb image).resize target_size)].map fun a =>
      a.map fun row => row.map fun px => px.map fun v => v / 255)

/-- Helper: conversion to RGB keeps the pixel grid byte-valued. -/
theorem to_rgb_bytes_valid (img : PilImage) (hv : img.bytes_valid) :
    (to_rgb img).bytes_valid := by
  intro y x
  unfold to_rgb
  split
  · exact hv y x
  · exact hv y x

/-- Helper: resizing samples the source grid, so it keeps pixels
byte-valued. -/
theorem resize_bytes_valid (img : PilImage) (size : ℕ × ℕ) (hv : img.bytes_valid) :
    (img.resize size).bytes_valid :=
  fun _ _ => hv _ _

/-- Helper: a byte divided by 255 lies in [0, 1]. -/
theorem byte_div_bounds (n : ℕ) (hn : n ≤ 255) :
    0 ≤ (n : ℚ) / 255 ∧ (n : ℚ) / 255 ≤ 1 := by
  constructor
  · positivity
  · rw [div_le_one (by norm_num)]
    exact_mod_cast hn

/-- C9: when the model is not loaded, `preprocess_image` fails with
`ValueError`; when it is loaded and the image has byte pixels, the result
is a 4-dimensional array of shape (1, target height, target width, 3),
computed from the RGB-converted image, with every element in [0, 1]. -/
theorem preprocess_image_contract (ts : ℕ × ℕ) (img : PilImage)
    (hv : img.bytes_valid) :
    preprocess_image false ts img = Except.error "Model not loaded" ∧
    (to_rgb img).mode = "RGB" ∧
    (∃ arr, preprocess_image true ts img = Except.ok arr ∧
      arr.length = 1 ∧
      ∀ a ∈ arr, a.length = ts.2 ∧
        ∀ row ∈ a, row.length = ts.1 ∧
          ∀ px ∈ row, px.length = 3 ∧
            ∀ v ∈ px, 0 ≤ v ∧ v ≤ 1) := by
  have hvR : ((to_rgb img).resize ts).bytes_valid :=
    resize_bytes_valid _ _ (to_rgb_bytes_valid _ hv)
  refine ⟨rfl, ?_, ?_⟩
  · unfold to_rgb
    split
    · assumption
    · rfl
  have hok : preprocess_image true ts img =
      Except.ok [(img_to_array ((to_rgb img).resize ts)).map fun row =>
        row.map fun px => px.map fun v => v / 255] := rfl
  refine ⟨_, hok, rfl, ?_⟩
  intro a ha
  have ha' : a = (img_to_array ((to_rgb img).resize ts)).map fun row =>
      row.map fun px => px.map fun v => v / 255 := by
    simpa using ha
  subst ha'
  constructor
  · simp [img_to_array, PilImage.resize]
  intro row hrow
  rw [List.mem_map] at hrow
  obtain ⟨row0, hrow0, rfl⟩ := hrow
  rw [img_to_array, List.mem_map] at hrow0
  obtain ⟨y, _, rfl⟩ := hrow0
  constructor
  · simp [PilImage.resize]
  intro px hpx
  rw [List.mem_map] at hpx
  obtain ⟨px0, hpx0, rfl⟩ := hpx
  rw [List.mem_map] at hpx0
  obtain ⟨x, _, rfl⟩ := hpx0
  constructor
  · rfl
  intro v hvmem
  rw [List.mem_map] at hvmem
  obtain ⟨u, hu, rfl⟩ := hvmem
  obtain ⟨h1, h2, h3⟩ := hvR y x
  simp only [List.mem_cons, List.not_mem_nil, or_false] at hu
  rcases hu with rfl | rfl | rfl
  · exact byte_div_bounds _ h1
  · exact byte_div_bounds _ h2
  · exact byte_div_bounds _ h3

/-- Witness for C9 on a concrete 50x60 grayscale image with constant
pixels. -/
theorem preprocess_image_contract_witness :
    (PilImage.mk "L" 50 60 (fun _ _ => (7, 8, 9))).bytes_valid ∧
    (preprocess_image false (48, 48) (PilImage.mk "L" 50 60 (fun _ _ => (7, 8, 9))) =
      Except.error "Model not loaded" ∧
    (to_rgb (PilImage.mk "L" 50 60 (fun _ _ => (7, 8, 9)))).mode = "RGB" ∧
    (∃ arr, preprocess_image true (48, 48) (PilImage.mk "L" 50 60 (fun _ _ => (7, 8, 9))) =
        Except.ok arr ∧
      arr.length = 1 ∧
      ∀ a ∈ arr, a.length = (48, 48).2 ∧
        ∀ row ∈ a, row.length = (48, 48).1 ∧
          ∀ px ∈ row, px.length = 3 ∧
            ∀ v ∈ px, 0 ≤ v ∧ v ≤ 1)) :=
  ⟨fun _ _ => ⟨(by decide : (7 : ℕ) ≤ 255), (by decide : (8 : ℕ) ≤ 255),
      (by decide : (9 : ℕ) ≤ 255)⟩,
    preprocess_image_contract (48, 48) (PilImage.mk "L" 50 60 (fun _ _ => (7, 8, 9)))
      (fun _ _ => ⟨(by decide : (7 : ℕ) ≤ 255), (by decide : (8 : ℕ) ≤ 255),
        (by decide : (9 : ℕ) ≤ 255)⟩)⟩

end CancerDetection
